import Mathlib

/-!
Shallow embedding of the `slope` prototype (src/main.rs, Bevy 0.12 + bevy_rapier3d).

Modelling conventions:
* Coordinates and velocities are `f32` in the source.  Every operation the
  claims touch (`ceil`, `abs`, `%` on an integer-valued float, additions of
  small constants) is exact in IEEE `f32` for the magnitudes a game session
  produces, so positions are modelled as `ℚ` and `f32::ceil` as `Int.ceil`.
* Rotations are kept symbolic: a `Quat::from_rotation_x(a * PI)` is recorded
  as the rational multiple `a` of π, and `Transform::looking_at` records the
  (un-normalised) forward vector and the up vector it was called with.  The
  numeric quaternion computation lives in the engine, not in this repository.
* Bevy runs the `Update` systems of one frame with an engine-chosen order for
  the tuple `(correct_skybox, follow_player, handle_input, generate_floor,
  check_distance)`.  The per-frame model below serialises `generate_floor`
  before `check_distance` (their declaration order); every theorem proved
  about the frame function is insensitive to that choice.
* Bevy events are double-buffered: an event sent in frame `n` is readable in
  frames `n` and `n + 1` and is dropped by the second `Events::update`.
  `GenerateMapEvent` carries no payload, so the two buffers are counts.
-/

/-- A 3-vector with rational components (exact model of the `f32` `Vec3`). -/
structure Vec3 where
  x : ℚ
  y : ℚ
  z : ℚ
  deriving DecidableEq, Repr

/-- Symbolic rotation values: only the rotations the source constructs.
`fromRotationX a` stands for `Quat::from_rotation_x(a * PI)`;
`lookingAt f u` stands for the quaternion `looking_at` computes from the
forward vector `f = target - translation` and up vector `u`. -/
inductive Rotation where
  | ident : Rotation
  | fromRotationX (angleOverPi : ℚ) : Rotation
  | lookingAt (forward : Vec3) (up : Vec3) : Rotation
  deriving DecidableEq, Repr

/-- Bevy `Transform`, reduced to the fields this program ever writes or reads.
(No system in the repository touches `scale`; it stays at its spawn value.) -/
structure Transform where
  translation : Vec3
  rotation : Rotation
  deriving DecidableEq, Repr

/-- `enum AppState { Generated, #[default] Idle }` from the source. -/
inductive AppState where
  | Generated : AppState
  | Idle : AppState
  deriving DecidableEq, Repr

instance : Inhabited AppState := ⟨AppState.Idle⟩

/-- `check_distance` (src/main.rs:237): for the (single) player transform it
computes `transform.translation.z.ceil().abs() % 10. == 0.` and on `true`
sends a `GenerateMapEvent` and queues `AppState::Generated`, on `false`
queues `AppState::Idle`.  `f32::ceil` is the exact mathematical ceiling,
`abs` of it is `Int.natAbs`, and `%` on non-negative integer-valued floats
is `Nat` remainder.  Returns (event sent?, queued next state). -/
def check_distance (z : ℚ) : Bool × AppState :=
  match (Int.natAbs ⌈z⌉) % 10 == 0 with
  | true => (true, AppState.Generated)
  | false => (false, AppState.Idle)

/-- The trigger quantity exactly as the spec words it: `ceil(|z|) mod 10`
(absolute value taken before the ceiling).  Declared only to compare the
spec formula with the source expression `z.ceil().abs() % 10.`. -/
def specTriggerQuantity (z : ℚ) : ℕ :=
  (Int.toNat ⌈|z|⌉) % 10

/-- One spawned floor segment (`generate_floor`, src/main.rs:196): the rapier
collider is `Collider::cuboid(5.0, 0.5, 25.0)` (half-extents), the mesh is a
`shape::Box` with the matching min/max corners, and the transform is
`Transform::from_xyz(t.x, t.y - 2.0, t.z)` rotated by
`Quat::from_rotation_x(-PI / 8.)`. -/
structure Segment where
  colliderHalfExtents : Vec3
  meshMin : Vec3
  meshMax : Vec3
  transform : Transform
  deriving DecidableEq, Repr

/-- The segment `generate_floor` spawns for one `GenerateMapEvent`, given the
player translation at the time the event is read. -/
def floor_segment (t : Vec3) : Segment :=
  { colliderHalfExtents := ⟨5, 1/2, 25⟩
    meshMin := ⟨-5, -(1/2), -25⟩
    meshMax := ⟨5, 1/2, 25⟩
    transform :=
      { translation := ⟨t.x, t.y - 2, t.z⟩
        rotation := Rotation.fromRotationX (-(1/8)) } }

/-- The event loop of `generate_floor`: one segment per pending
`GenerateMapEvent`, all at the current player translation, appended to the world. -/
def generate_floor (pending : ℕ) (player : Vec3) (segments : List Segment) :
    List Segment :=
  segments ++ List.replicate pending (floor_segment player)

/-- Engine-side state the floor extender interacts with, at a frame boundary:
the applied `State<AppState>`, the `NextState` queued during the frame, the
two `Events<GenerateMapEvent>` buffers (events unread from the previous
frame / events sent this frame), the spawned segments, and the player
translation. -/
structure GameState where
  appState : AppState
  nextState : AppState
  eventsOld : ℕ
  eventsNew : ℕ
  segments : List Segment
  playerPos : Vec3
  deriving DecidableEq, Repr

/-- One engine frame, as it acts on the floor-extender state.  `p` is the
player translation during the `Update` of this frame (rapier integrates in
`PostUpdate`, after these systems ran).  In order: `Events::update` drops
the old buffer and ages the new one; `StateTransition` applies the queued
state; `generate_floor` runs iff the applied state is `Idle`
(`run_if(in_state(AppState::Idle))`) and drains the readable events;
`check_distance` sends an event and queues the next state. -/
def frame (s : GameState) (p : Vec3) : GameState :=
  let readable := s.eventsNew
  let st := s.nextState
  let segs :=
    if st = AppState.Idle then generate_floor readable p s.segments
    else s.segments
  let unread := if st = AppState.Idle then 0 else readable
  let cd := check_distance p.z
  { appState := st
    nextState := cd.2
    eventsOld := unread
    eventsNew := if cd.1 then 1 else 0
    segments := segs
    playerPos := p }

/-- The world `setup_world` (src/main.rs:58) leaves behind, as seen by the
floor extender: the player ball at `(0, 4, 0)`, no segments, default state
`Idle` with nothing queued, and exactly one `GenerateMapEvent` sent (still
in the fresh buffer when the systems of the first frame run). -/
def initial_state : GameState :=
  { appState := AppState.Idle
    nextState := AppState.Idle
    eventsOld := 0
    eventsNew := 1
    segments := []
    playerPos := ⟨0, 4, 0⟩ }

/-- `WindowMode` variants of the windowing layer (bevy 0.12). -/
inductive WindowMode where
  | Windowed : WindowMode
  | BorderlessFullscreen : WindowMode
  | SizedFullscreen : WindowMode
  | Fullscreen : WindowMode
  deriving DecidableEq, Repr

/-- The `F11` arm of `handle_input` (src/main.rs:187):
`match window.mode { BorderlessFullscreen => Windowed, _ => BorderlessFullscreen }`. -/
def toggle_fullscreen (m : WindowMode) : WindowMode :=
  match m with
  | WindowMode.BorderlessFullscreen => WindowMode.Windowed
  | _ => WindowMode.BorderlessFullscreen

/-- The keyboard facts `handle_input` reads in one frame:
`pressed(A)`, `pressed(S)`, `just_pressed(F11)`. -/
structure KeyboardInput where
  pressedA : Bool
  pressedS : Bool
  justPressedF11 : Bool
  deriving DecidableEq, Repr

/-- `handle_input` (src/main.rs:171) acting on the rapier
`Velocity.linvel` of the single player and the mode of the single window:
`A` does `linvel.x -= 0.1`, `S` does `linvel.x += 0.1`, a fresh `F11` press
toggles the window mode.  No branch touches `linvel.y` or `linvel.z`. -/
def handle_input (keys : KeyboardInput) (linvel : Vec3) (mode : WindowMode) :
    Vec3 × WindowMode :=
  let v1 := if keys.pressedA then { linvel with x := linvel.x - 1/10 } else linvel
  let v2 := if keys.pressedS then { v1 with x := v1.x + 1/10 } else v1
  let m := if keys.justPressedF11 then toggle_fullscreen mode else mode
  (v2, m)

/-- `N` consecutive frames of `handle_input` with the same keys held
(window mode fixed; it does not feed back into the velocity arms). -/
def held_frames (keys : KeyboardInput) : ℕ → Vec3 → Vec3
  | 0, v => v
  | n + 1, v => held_frames keys n (handle_input keys v WindowMode.Windowed).1

/-- `Transform::looking_at(target, up)` (engine): keeps the translation and
replaces the rotation by the one computed from the forward vector
`target - translation` and `up`. -/
def looking_at (t : Transform) (target up : Vec3) : Transform :=
  { t with
    rotation :=
      Rotation.lookingAt
        ⟨target.x - t.translation.x, target.y - t.translation.y,
          target.z - t.translation.z⟩ up }

/-- `follow_player` (src/main.rs:154) acting on the single camera transform,
given the translation of the single player: sets `camera.translation` to
`player + (0, 5, 10)` componentwise, then `*camera =
camera.looking_at(player.translation, Vec3::Y)`. -/
def follow_player (player : Vec3) (camera : Transform) : Transform :=
  let moved : Transform :=
    { camera with
      translation := ⟨player.x + 0, player.y + 5, player.z + 10⟩ }
  looking_at moved player ⟨0, 1, 0⟩

/-- `bevy::asset::LoadState`, as polled by `correct_skybox`
(`get_load_state` returns an `Option<LoadState>`). -/
inductive LoadState where
  | NotLoaded : LoadState
  | Loading : LoadState
  | Loaded : LoadState
  | Failed : LoadState
  deriving DecidableEq, Repr

/-- The skybox image data `correct_skybox` reads and writes: texture size,
`array_layer_count` of the texture descriptor, and whether the texture view
descriptor has been set to `TextureViewDimension::Cube`. -/
structure Image where
  width : ℕ
  height : ℕ
  arrayLayerCount : ℕ
  viewDimensionCube : Bool
  deriving DecidableEq, Repr

/-- The state `correct_skybox` touches: the `Cubemap` resource (`is_loaded`
flag plus the handle of the backing image), the backing image itself, and
the `Skybox` components (each holding an image handle).  Handles are plain
numeric ids. -/
structure SkyboxWorld where
  isLoaded : Bool
  imageHandle : ℕ
  image : Image
  skyboxes : List ℕ
  deriving DecidableEq, Repr

/-- `correct_skybox` (src/main.rs:125): guarded by `!cubemap.is_loaded &&
get_load_state(handle) == Some(Loaded)`.  The body reinterprets the strip
image as an array (layer count `height / width`, `u32` truncating division;
`reinterpret_stacked_2d_as_array` divides the stored height by the layer
count) when it still has a single layer, marks the texture view as a cube,
points every `Skybox` component at the cubemap handle, and sets
`is_loaded`.  Otherwise the body does not run at all. -/
def correct_skybox (loadState : Option LoadState) (w : SkyboxWorld) :
    SkyboxWorld :=
  if !w.isLoaded && loadState == some LoadState.Loaded then
    let img :=
      if w.image.arrayLayerCount == 1 then
        let layers := w.image.height / w.image.width
        { w.image with
          arrayLayerCount := layers
          height := w.image.height / layers
          viewDimensionCube := true }
      else w.image
    { w with
      image := img
      skyboxes := w.skyboxes.map (fun _ => w.imageHandle)
      isLoaded := true }
  else w

/-- `n` frames of `correct_skybox` under a fixed polled load status. -/
def correct_skybox_frames (loadState : Option LoadState) :
    ℕ → SkyboxWorld → SkyboxWorld
  | 0, w => w
  | n + 1, w => correct_skybox_frames loadState n (correct_skybox loadState w)

/-- How `Query::get_single` fails: `unwrap` on its result is the panic the
source relies on for its exactly-one assumptions (`windows.single_mut()`
panics on the same two conditions). -/
inductive QuerySingleError where
  | NoEntities : QuerySingleError
  | MultipleEntities : QuerySingleError
  deriving DecidableEq, Repr

/-- `Query::get_single`: `Ok` exactly when the query matches one entity. -/
def get_single {α : Type} (l : List α) : Except QuerySingleError α :=
  match l with
  | [] => Except.error QuerySingleError.NoEntities
  | [a] => Except.ok a
  | _ :: _ :: _ => Except.error QuerySingleError.MultipleEntities

/-- `follow_player` including its two `get_single...().unwrap()` calls: a
returned `error` is a process panic in the source. -/
def follow_player_system (cameras : List Transform)
    (players : List Transform) : Except QuerySingleError Transform :=
  match get_single cameras with
  | Except.error e => Except.error e
  | Except.ok camera =>
    match get_single players with
    | Except.error e => Except.error e
    | Except.ok player => Except.ok (follow_player player.translation camera)

/-- `handle_input` including `player.get_single_mut().unwrap()` and
`windows.single_mut()` (which panics on zero or many windows). -/
def handle_input_system (players : List Vec3) (windows : List WindowMode)
    (keys : KeyboardInput) : Except QuerySingleError (Vec3 × WindowMode) :=
  match get_single players with
  | Except.error e => Except.error e
  | Except.ok linvel =>
    match get_single windows with
    | Except.error e => Except.error e
    | Except.ok window => Except.ok (handle_input keys linvel window)

/-- A concrete floor-extender state used to instantiate hypotheses of the
state-machine theorem: `Generated` has been queued by the previous frame and
one event is pending. -/
def witness_state : GameState :=
  { appState := AppState.Idle
    nextState := AppState.Generated
    eventsOld := 0
    eventsNew := 1
    segments := []
    playerPos := ⟨0, 4, 0⟩ }

theorem check_distance_fst (z : ℚ) :
    (check_distance z).1 = (Int.natAbs ⌈z⌉ % 10 == 0) := by
  unfold check_distance
  cases h : (Int.natAbs ⌈z⌉ % 10 == 0) <;> simp [h]

theorem check_distance_snd (z : ℚ) :
    (check_distance z).2
      = if Int.natAbs ⌈z⌉ % 10 = 0 then AppState.Generated else AppState.Idle := by
  unfold check_distance
  cases h : (Int.natAbs ⌈z⌉ % 10 == 0) <;>
    simp [beq_iff_eq] at h <;> simp [h]

theorem ceil_ten_point_six : (⌈(53/5 : ℚ)⌉ : ℤ) = 11 := by
  rw [Int.ceil_eq_iff]; norm_num

theorem ceil_neg_ten_point_five : (⌈(-(21/2) : ℚ)⌉ : ℤ) = -10 := by
  rw [Int.ceil_eq_iff]; norm_num

theorem ceil_ten_point_five : (⌈(21/2 : ℚ)⌉ : ℤ) = 11 := by
  rw [Int.ceil_eq_iff]; norm_num

theorem held_frames_A (n : ℕ) (v : Vec3) :
    held_frames ⟨true, false, false⟩ n v = ⟨v.x - n * (1/10), v.y, v.z⟩ := by
  induction n generalizing v with
  | zero => cases v; simp [held_frames]
  | succ k ih =>
    rw [held_frames, ih]
    simp only [handle_input, if_true, if_false, Vec3.mk.injEq]
    refine ⟨?_, rfl, rfl⟩
    push_cast
    ring

theorem held_frames_S (n : ℕ) (v : Vec3) :
    held_frames ⟨false, true, false⟩ n v = ⟨v.x + n * (1/10), v.y, v.z⟩ := by
  induction n generalizing v with
  | zero => cases v; simp [held_frames]
  | succ k ih =>
    rw [held_frames, ih]
    simp only [handle_input, if_true, if_false, Vec3.mk.injEq]
    refine ⟨?_, rfl, rfl⟩
    push_cast
    ring

theorem get_single_isOk {α : Type} (l : List α) :
    (get_single l).isOk = true ↔ l.length = 1 := by
  rcases l with _ | ⟨a, _ | ⟨b, t⟩⟩ <;>
    simp [get_single, Except.isOk, Except.toBool]

/-- Claim C1 (corrected; amended trigger formula): for every tick, the
floor-extender trigger quantity is `d = |ceil(player.z)| mod 10` (absolute
value applied after the ceiling; equal to the spec formula `ceil(|z|) mod 10`
whenever `z ≥ 0`), and a generation request is emitted on exactly the ticks
where `d = 0`; and on a tick where the player z moved from `9.4` to
`10.6`, the trigger condition is not satisfied and no request is emitted. -/
theorem floor_trigger_emission :
    ∀ (s : GameState) (p : Vec3) (a b x y : ℚ),
      ((frame s p).eventsNew = if Int.natAbs ⌈p.z⌉ % 10 = 0 then 1 else 0) ∧
      (frame { s with playerPos := ⟨a, b, 47/5⟩ } ⟨x, y, 53/5⟩).eventsNew = 0 := by
  intro s p a b x y
  constructor
  · show (if (check_distance p.z).1 then 1 else 0)
        = if Int.natAbs ⌈p.z⌉ % 10 = 0 then 1 else 0
    rw [check_distance_fst]
    by_cases h : Int.natAbs ⌈p.z⌉ % 10 = 0 <;> simp [h]
  · show (if (check_distance (53/5)).1 then 1 else 0) = 0
    rw [check_distance_fst, ceil_ten_point_six]
    simp

/-- Claim C1, counterexample to the original formula: at player position
`z = -10.5` the source emits a generation request
(`(-10.5).ceil().abs() % 10 == 0` since `ceil(-10.5) = -10`), yet the
spec trigger quantity `ceil(|z|) mod 10 = ceil(10.5) mod 10 = 1` is
nonzero, so requests are not emitted exactly when the spec says `d = 0`. -/
theorem floor_trigger_spec_formula_false :
    (frame initial_state ⟨0, 4, -(21/2)⟩).eventsNew = 1 ∧
    specTriggerQuantity (-(21/2)) = 1 := by
  constructor
  · show (if (check_distance (-(21/2))).1 then 1 else 0) = 1
    rw [check_distance_fst, ceil_neg_ten_point_five]
    simp
  · have habs : |(-(21/2) : ℚ)| = 21/2 := by
      rw [abs_neg]
      exact abs_of_nonneg (by norm_num)
    show Int.toNat ⌈|(-(21/2) : ℚ)|⌉ % 10 = 1
    rw [habs, ceil_ten_point_five]
    decide

/-- Claim C2 (confirmed): every generation request spawns a box of full size
10×1×50 (collider half-extents doubled, and mesh extent in each axis),
placed deterministically at `(x, y - 2, z)` from the player position
`(x, y, z)`, with the fixed rotation `-22.5° = -(45/2)° = -π/8` about the
lateral X axis. -/
theorem floor_segment_placement :
    ∀ p : Vec3,
      (floor_segment p).transform.translation = ⟨p.x, p.y - 2, p.z⟩ ∧
      (floor_segment p).transform.rotation
        = Rotation.fromRotationX (-(45/2) / 180) ∧
      2 * (floor_segment p).colliderHalfExtents.x = 10 ∧
      2 * (floor_segment p).colliderHalfExtents.y = 1 ∧
      2 * (floor_segment p).colliderHalfExtents.z = 50 ∧
      (floor_segment p).meshMax.x - (floor_segment p).meshMin.x = 10 ∧
      (floor_segment p).meshMax.y - (floor_segment p).meshMin.y = 1 ∧
      (floor_segment p).meshMax.z - (floor_segment p).meshMin.z = 50 := by
  intro p
  refine ⟨rfl, ?_, ?_, ?_, ?_, ?_, ?_, ?_⟩ <;>
    norm_num [floor_segment]

/-- Claim C3 (confirmed): on any frame whose applied generation state is
`Generated`, no segment is spawned (so none is added while the trigger
holds across consecutive `Generated` frames), and on any frame where the
trigger quantity `|ceil(z)| mod 10` is nonzero the queued next state is
`Idle`, re-arming the trigger. -/
theorem floor_state_machine :
    ∀ (s : GameState) (p : Vec3),
      (s.nextState = AppState.Generated → (frame s p).segments = s.segments) ∧
      (Int.natAbs ⌈p.z⌉ % 10 ≠ 0 → (frame s p).nextState = AppState.Idle) := by
  intro s p
  constructor
  · intro h
    show (if s.nextState = AppState.Idle then _ else s.segments) = s.segments
    rw [h]
    simp
  · intro h
    show (check_distance p.z).2 = AppState.Idle
    rw [check_distance_snd]
    simp [h]

/-- Witness for `floor_state_machine`: with `Generated` queued and one event
pending, the frame at `z = 3` spawns nothing and re-arms to `Idle`. -/
theorem floor_state_machine_witness :
    (frame witness_state ⟨0, 0, 3⟩).segments = [] ∧
    (frame witness_state ⟨0, 0, 3⟩).nextState = AppState.Idle := by
  have h3 : Int.natAbs ⌈(3 : ℚ)⌉ % 10 ≠ 0 := by simp
  exact ⟨(floor_state_machine witness_state ⟨0, 0, 3⟩).1 rfl,
    (floor_state_machine witness_state ⟨0, 0, 3⟩).2 h3⟩

/-- Claim C4 (corrected): each held movement key adds a fixed `0.1` to the
player X velocity component — `A` subtracts `0.1`, `S` adds `0.1` — and
no key adjusts the Z (or Y) component in this iteration. -/
theorem handle_input_velocity_deltas :
    ∀ (keys : KeyboardInput) (v : Vec3) (m : WindowMode),
      (handle_input keys v m).1.x
        = v.x - (if keys.pressedA then 1/10 else 0)
            + (if keys.pressedS then 1/10 else 0) ∧
      (handle_input keys v m).1.y = v.y ∧
      (handle_input keys v m).1.z = v.z := by
  intro keys v m
  cases hA : keys.pressedA <;> cases hS : keys.pressedS <;>
    simp [handle_input, hA, hS]

/-- Claim C4, counterexample to the original axis mapping: holding only the
back-row key `S` (velocity `(0,0,0)`) leaves the Z component at `0` — it is
not adjusted by `±0.1` as "forward/back keys adjust the Z component" would
require — and instead raises the X component to `0.1`. -/
theorem handle_input_s_adjusts_x_not_z :
    ¬ ((handle_input ⟨false, true, false⟩ ⟨0, 0, 0⟩ WindowMode.Windowed).1.z
          = 0 + 1/10 ∨
        (handle_input ⟨false, true, false⟩ ⟨0, 0, 0⟩ WindowMode.Windowed).1.z
          = 0 - 1/10) ∧
    (handle_input ⟨false, true, false⟩ ⟨0, 0, 0⟩ WindowMode.Windowed).1.x
      = 0 + 1/10 := by
  constructor
  · simp [handle_input]
  · simp [handle_input]

/-- Claim C5 (confirmed): the camera-follow step is a deterministic function
of the player position `p` alone — independent of the prior camera
transform — placing the camera at `p + (0, 5, 10)` and orienting it to look
at `p` (forward vector `p - camera = (0, -5, -10)`) with up-vector
`(0, 1, 0)`. -/
theorem camera_follow_pure :
    ∀ (p : Vec3) (c c₂ : Transform),
      follow_player p c = follow_player p c₂ ∧
      (follow_player p c).translation = ⟨p.x, p.y + 5, p.z + 10⟩ ∧
      (follow_player p c).rotation
        = Rotation.lookingAt ⟨0, -5, -10⟩ ⟨0, 1, 0⟩ := by
  intro p c c₂
  refine ⟨rfl, ?_, ?_⟩
  · simp [follow_player, looking_at]
  · show Rotation.lookingAt
        ⟨p.x - (p.x + 0), p.y - (p.y + 5), p.z - (p.z + 10)⟩ ⟨0, 1, 0⟩
      = Rotation.lookingAt ⟨0, -5, -10⟩ ⟨0, 1, 0⟩
    have hv : (⟨p.x - (p.x + 0), p.y - (p.y + 5), p.z - (p.z + 10)⟩ : Vec3)
        = ⟨0, -5, -10⟩ := by
      rw [Vec3.mk.injEq]
      refine ⟨by ring, by ring, by ring⟩
    rw [hv]

/-- Claim C6 (confirmed): holding the same movement key for `N` consecutive
ticks changes the mapped velocity component by exactly `N × 0.1` — the
translator applies no decay or clamping: `A` yields `x - N × 0.1`, `S`
yields `x + N × 0.1`, monotonically in `N`, and no other component moves. -/
theorem held_key_accumulation :
    ∀ (n : ℕ) (v : Vec3),
      (held_frames ⟨true, false, false⟩ n v).x = v.x - n * (1/10) ∧
      (held_frames ⟨false, true, false⟩ n v).x = v.x + n * (1/10) ∧
      (held_frames ⟨true, false, false⟩ n v).y = v.y ∧
      (held_frames ⟨false, true, false⟩ n v).y = v.y ∧
      (held_frames ⟨true, false, false⟩ n v).z = v.z ∧
      (held_frames ⟨false, true, false⟩ n v).z = v.z := by
  intro n v
  rw [held_frames_A, held_frames_S]
  exact ⟨rfl, rfl, rfl, rfl, rfl, rfl⟩

/-- Claim C7 (confirmed): the skybox corrector is one-shot — while the image
is not yet loaded its body never runs (over any number of frames); on the
first loaded frame it reinterprets the strip with layer count
`height / width`, marks the view a cube, hands the cubemap handle to every
skybox-bearing entity and sets the done flag; and once the flag is set, any
later invocation leaves the world untouched. -/
theorem skybox_one_shot :
    ∀ (l : Option LoadState) (w : SkyboxWorld) (n : ℕ),
      (l ≠ some LoadState.Loaded → correct_skybox l w = w) ∧
      (l ≠ some LoadState.Loaded → correct_skybox_frames l n w = w) ∧
      (w.isLoaded = true → correct_skybox l w = w) ∧
      (w.isLoaded = false → l = some LoadState.Loaded →
        w.image.arrayLayerCount = 1 →
        (correct_skybox l w).isLoaded = true ∧
        (correct_skybox l w).image.arrayLayerCount
          = w.image.height / w.image.width ∧
        (correct_skybox l w).image.viewDimensionCube = true ∧
        (correct_skybox l w).skyboxes
          = List.map (fun _ => w.imageHandle) w.skyboxes) := by
  intro l w n
  have hnot : ∀ m : Option LoadState, m ≠ some LoadState.Loaded →
      ∀ u : SkyboxWorld, correct_skybox m u = u := by
    intro m hm u
    simp [correct_skybox, hm]
  refine ⟨fun h => hnot l h w, fun h => ?_, fun h => ?_, fun h hl h1 => ?_⟩
  · induction n generalizing w with
    | zero => rfl
    | succ k ih =>
      rw [correct_skybox_frames, hnot l h w]
      exact ih w
  · simp [correct_skybox, h]
  · subst hl
    refine ⟨?_, ?_, ?_, ?_⟩ <;> simp [correct_skybox, h, h1]

/-- Witness for `skybox_one_shot`: a 2×12 single-layer strip with two skybox
entities; unloaded polls leave it alone, a finished world is left alone, and
the loaded poll sets the flag and derives `12 / 2 = 6` layers. -/
theorem skybox_one_shot_witness :
    correct_skybox none ⟨false, 7, ⟨2, 12, 1, false⟩, [3, 4]⟩
      = ⟨false, 7, ⟨2, 12, 1, false⟩, [3, 4]⟩ ∧
    correct_skybox_frames none 5 ⟨false, 7, ⟨2, 12, 1, false⟩, [3, 4]⟩
      = ⟨false, 7, ⟨2, 12, 1, false⟩, [3, 4]⟩ ∧
    correct_skybox (some LoadState.Loaded) ⟨true, 7, ⟨2, 6, 6, true⟩, [7, 7]⟩
      = ⟨true, 7, ⟨2, 6, 6, true⟩, [7, 7]⟩ ∧
    (correct_skybox (some LoadState.Loaded)
        ⟨false, 7, ⟨2, 12, 1, false⟩, [3, 4]⟩).isLoaded = true ∧
    (correct_skybox (some LoadState.Loaded)
        ⟨false, 7, ⟨2, 12, 1, false⟩, [3, 4]⟩).image.arrayLayerCount = 6 ∧
    (correct_skybox (some LoadState.Loaded)
        ⟨false, 7, ⟨2, 12, 1, false⟩, [3, 4]⟩).skyboxes = [7, 7] := by
  have hln : (none : Option LoadState) ≠ some LoadState.Loaded := by
    simp
  have h := skybox_one_shot (some LoadState.Loaded)
    ⟨false, 7, ⟨2, 12, 1, false⟩, [3, 4]⟩ 5
  have hrun := h.2.2.2 rfl rfl rfl
  refine ⟨(skybox_one_shot none ⟨false, 7, ⟨2, 12, 1, false⟩, [3, 4]⟩ 5).1 hln,
    (skybox_one_shot none ⟨false, 7, ⟨2, 12, 1, false⟩, [3, 4]⟩ 5).2.1 hln,
    (skybox_one_shot (some LoadState.Loaded)
      ⟨true, 7, ⟨2, 6, 6, true⟩, [7, 7]⟩ 5).2.2.1 rfl,
    hrun.1, ?_, ?_⟩
  · rw [hrun.2.1]
    rfl
  · rw [hrun.2.2.2]
    rfl

/-- Claim C8 (confirmed): the exactly-one cardinality assumptions are
enforced by unwrapping single-result queries — the camera-follow and
input-handler systems succeed (return `ok`, the panic branch unreachable)
precisely when each queried entity count is exactly one, and panic
(`error`, a fatal unwrap in the source) on every other count. -/
theorem single_entity_panics :
    ∀ (cameras players : List Transform) (vels : List Vec3)
      (windows : List WindowMode) (keys : KeyboardInput),
      ((follow_player_system cameras players).isOk = true ↔
        cameras.length = 1 ∧ players.length = 1) ∧
      ((handle_input_system vels windows keys).isOk = true ↔
        vels.length = 1 ∧ windows.length = 1) := by
  intro cameras players vels windows keys
  constructor
  · rcases cameras with _ | ⟨c, _ | ⟨c₂, cs⟩⟩ <;>
      rcases players with _ | ⟨q, _ | ⟨q₂, qs⟩⟩ <;>
        simp [follow_player_system, get_single, Except.isOk, Except.toBool]
  · rcases vels with _ | ⟨u, _ | ⟨u₂, us⟩⟩ <;>
      rcases windows with _ | ⟨w, _ | ⟨w₂, ws⟩⟩ <;>
        simp [handle_input_system, get_single, Except.isOk, Except.toBool]

/-- Claim C9 (confirmed): a fresh F11 press maps borderless-fullscreen to
windowed and every other mode to borderless-fullscreen, so the mode flag
flips between exactly those two values and two consecutive presses from
either of them restore the original mode. -/
theorem fullscreen_toggle_involutive :
    ∀ (m : WindowMode) (v : Vec3) (a s : Bool),
      toggle_fullscreen WindowMode.BorderlessFullscreen
        = WindowMode.Windowed ∧
      (toggle_fullscreen m =
        if m = WindowMode.BorderlessFullscreen then WindowMode.Windowed
        else WindowMode.BorderlessFullscreen) ∧
      toggle_fullscreen (toggle_fullscreen WindowMode.Windowed)
        = WindowMode.Windowed ∧
      toggle_fullscreen (toggle_fullscreen WindowMode.BorderlessFullscreen)
        = WindowMode.BorderlessFullscreen ∧
      (handle_input ⟨a, s, true⟩ v m).2 = toggle_fullscreen m := by
  intro m v a s
  refine ⟨rfl, ?_, rfl, rfl, ?_⟩
  · cases m <;> simp [toggle_fullscreen]
  · simp [handle_input]

/-- Claim C10 (confirmed): world bootstrap emits exactly one generation
event, places the player at `(0, 4, 0)` and starts the generation state at
`Idle` with no segments, so the first frame spawns exactly the one segment
at `(0, 2, 0)` with the standard `-22.5° = -(45/2)°` tilt. -/
theorem initial_spawn :
    initial_state.eventsOld + initial_state.eventsNew = 1 ∧
    initial_state.playerPos = ⟨0, 4, 0⟩ ∧
    initial_state.nextState = AppState.Idle ∧
    initial_state.segments = [] ∧
    (frame initial_state initial_state.playerPos).segments
      = [floor_segment ⟨0, 4, 0⟩] ∧
    (floor_segment ⟨0, 4, 0⟩).transform.translation = ⟨0, 2, 0⟩ ∧
    (floor_segment ⟨0, 4, 0⟩).transform.rotation
      = Rotation.fromRotationX (-(45/2) / 180) := by
  refine ⟨rfl, rfl, rfl, rfl, ?_, ?_, ?_⟩
  · show (if AppState.Idle = AppState.Idle
        then generate_floor 1 ⟨0, 4, 0⟩ [] else []) = [floor_segment ⟨0, 4, 0⟩]
    simp [generate_floor]
  · simp [floor_segment]
    norm_num
  · simp [floor_segment]
    norm_num
